import Mathlib

/-!
Shallow embedding of the model provider gateway of the MAGI system
(`magi/utils/model_provider.py`): model capability tables, the fallback
planner, tool schema translation, per-model token clamping, response text
extraction, and the retry-and-fallback orchestration loop, together with
theorems settling the specification claims about them.
-/

set_option autoImplicit false

namespace MagiModelProvider

/-- The `MODEL_CLASSES` table: capability classes in dictionary insertion
order, each with its member models in declaration order. -/
def MODEL_CLASSES : List (String × List String) :=
  [("standard",
    ["gpt-4o",
     "gemini-2.0-flash",
     "gemini-pro"]),
   ("mini",
    ["gpt-4o-mini",
     "claude-3-5-haiku-latest",
     "gemini-2.0-flash-lite"]),
   ("reasoning",
    ["o3-mini",
     "claude-3-7-sonnet-latest",
     "gemini-2.0-ultra",
     "grok-2-latest",
     "grok-2",
     "grok"]),
   ("vision",
    ["computer-use-preview",
     "gemini-pro-vision",
     "gemini-2.0-pro-vision",
     "gemini-2.0-ultra-vision",
     "grok-1.5-vision",
     "grok-2-vision-1212"]),
   ("search",
    ["gpt-4o-search-preview",
     "gpt-4o-mini-search-preview"])]

/-- The `MODEL_TO_PROVIDER` table mapping each known model to its provider. -/
def MODEL_TO_PROVIDER : List (String × String) :=
  [("gpt-4o", "openai"),
   ("gpt-4o-mini", "openai"),
   ("o3-mini", "openai"),
   ("computer-use-preview", "openai"),
   ("gpt-4o-search-preview", "openai"),
   ("gpt-4o-mini-search-preview", "openai"),
   ("claude-3-7-sonnet-latest", "anthropic"),
   ("claude-3-5-haiku-latest", "anthropic"),
   ("gemini-pro", "google"),
   ("gemini-pro-vision", "google"),
   ("gemini-1.5-pro", "google"),
   ("gemini-1.5-flash", "google"),
   ("gemini-2.0-pro", "google"),
   ("gemini-2.0-pro-vision", "google"),
   ("gemini-2.0-ultra", "google"),
   ("gemini-2.0-ultra-vision", "google"),
   ("gemini-2.0-flash", "google"),
   ("gemini-2.0-flash-lite", "google"),
   ("gemini-2.0-flash-thinking-exp", "google"),
   ("grok", "xai"),
   ("grok-1", "xai"),
   ("grok-1.5-vision", "xai"),
   ("grok-2", "xai"),
   ("grok-2-latest", "xai"),
   ("grok-2-vision-1212", "xai")]

/-- `MODEL_TO_PROVIDER.get(model)`: the provider of a model, if it has one. -/
def providerOf (model : String) : Option String :=
  (MODEL_TO_PROVIDER.find? (fun p => p.1 = model)).map (fun p => p.2)

/-- `MODEL_CLASSES[class_name]`: the member list of a capability class
(empty for a name not in the table). -/
def classModels (className : String) : List String :=
  ((MODEL_CLASSES.find? (fun p => p.1 = className)).map (fun p => p.2)).getD []

/-- The class-lookup loop at the top of `get_fallback_models`: iterate the
classes in dictionary order and stop at the first one containing the model. -/
def modelClassOf (model : String) : Option String :=
  if model ∈ classModels "standard" then some "standard"
  else if model ∈ classModels "mini" then some "mini"
  else if model ∈ classModels "reasoning" then some "reasoning"
  else if model ∈ classModels "vision" then some "vision"
  else if model ∈ classModels "search" then some "search"
  else none

/-- `get_fallback_models(model)` from `model_provider.py`: same-class
same-provider models first, then remaining same-class models, and for
specialized classes the same-provider standard models, same-provider mini
models, and finally any standard/mini models not yet listed.  Each append
is guarded exactly as in the source. -/
def get_fallback_models (model : String) : List String :=
  match modelClassOf model with
  | none => []
  | some modelClass =>
    let provider := providerOf model
    let fb1 := (classModels modelClass).foldl
      (fun acc m => if m ≠ model ∧ providerOf m = provider then acc ++ [m] else acc) []
    let fb2 := (classModels modelClass).foldl
      (fun acc m => if m ≠ model ∧ m ∉ acc then acc ++ [m] else acc) fb1
    if modelClass ≠ "standard" ∧ modelClass ≠ "mini" then
      let fb3 := (classModels "standard").foldl
        (fun acc m => if providerOf m = provider then acc ++ [m] else acc) fb2
      let fb4 := (classModels "mini").foldl
        (fun acc m => if providerOf m = provider then acc ++ [m] else acc) fb3
      (["standard", "mini"].flatMap classModels).foldl
        (fun acc m => if m ∉ acc then acc ++ [m] else acc) fb4
    else fb2

/-- De-duplication preserving first-seen order. -/
def dedupFirst (l : List String) : List String :=
  l.foldl (fun acc m => if m ∈ acc then acc else acc ++ [m]) []

/-- The fallback ordering exactly as the specification words it: same-class
same-provider models (declaration order), then same-class other-provider
models, and for classes other than standard/mini the same-provider standard
models, same-provider mini models, and the remaining standard and mini
models, the whole list de-duplicated preserving first-seen order.  Written
from the spec to be compared with `get_fallback_models`. -/
def fallback_plan_spec (model : String) : List String :=
  match modelClassOf model with
  | none => []
  | some cls =>
    let provider := providerOf model
    let sameProv := (classModels cls).filter
      (fun m => decide (m ≠ model ∧ providerOf m = provider))
    let otherProv := (classModels cls).filter
      (fun m => decide (m ≠ model ∧ providerOf m ≠ provider))
    let tail :=
      if cls ≠ "standard" ∧ cls ≠ "mini" then
        (classModels "standard").filter (fun m => decide (providerOf m = provider))
          ++ (classModels "mini").filter (fun m => decide (providerOf m = provider))
          ++ (classModels "standard" ++ classModels "mini")
      else []
    dedupFirst (sameProv ++ otherProv ++ tail)

/-- All models that belong to some capability class. -/
def allClassifiedModels : List String :=
  MODEL_CLASSES.flatMap (fun p => p.2)

theorem mem_allClassifiedModels_of_isSome (m : String)
    (h : (modelClassOf m).isSome) : m ∈ allClassifiedModels := by
  unfold modelClassOf at h
  split_ifs at h with h1 h2 h3 h4 h5
  all_goals
    simp only [classModels, MODEL_CLASSES, List.find?, allClassifiedModels,
      List.flatMap] at *
    simp_all
    try tauto

theorem fallback_of_unclassified (m : String) (h : modelClassOf m = none) :
    get_fallback_models m = [] := by
  unfold get_fallback_models
  rw [h]

/-- Claim C1, counterexample: the model "totally-unknown-model" belongs to no
capability class, yet `get_fallback_models` returns the empty list for it,
not a non-empty provider-diverse default list. -/
theorem C1_unknown_model_plan_cex :
    modelClassOf "totally-unknown-model" = none ∧
      get_fallback_models "totally-unknown-model" = [] := by
  constructor <;> decide

/-- Claim C1 (amended): for every model that belongs to no capability class,
`get_fallback_models` returns the empty list. -/
theorem C1_unknown_model_plan (m : String) (h : modelClassOf m = none) :
    get_fallback_models m = [] :=
  fallback_of_unclassified m h

/-- Witness for C1: the amended claim applied at "totally-unknown-model". -/
theorem C1_unknown_model_plan_witness :
    get_fallback_models "totally-unknown-model" = [] :=
  C1_unknown_model_plan "totally-unknown-model" (by decide)

/-- Claim C4: for every model that belongs to a capability class, the fallback
list computed by `get_fallback_models` is exactly the ordering the spec
describes (`fallback_plan_spec`): same-class same-provider models in
declaration order, then same-class other-provider models, then for
specialized classes the same-provider standard models, same-provider mini
models, and the remaining standard and mini models, de-duplicated preserving
first-seen order.  In particular every same-provider same-class alternative
precedes every other-provider same-class alternative. -/
theorem C4_fallback_ordering (m : String) (h : (modelClassOf m).isSome) :
    get_fallback_models m = fallback_plan_spec m := by
  have hmem := mem_allClassifiedModels_of_isSome m h
  simp [allClassifiedModels, MODEL_CLASSES] at hmem
  rcases hmem with rfl|rfl|rfl|rfl|rfl|rfl|rfl|rfl|rfl|rfl|rfl|rfl|rfl|rfl|rfl|rfl|rfl|rfl|rfl|rfl <;> rfl

/-- Witness for C4: the ordering theorem applied at the classified model
"o3-mini". -/
theorem C4_fallback_ordering_witness :
    (modelClassOf "o3-mini").isSome ∧
      get_fallback_models "o3-mini" = fallback_plan_spec "o3-mini" :=
  ⟨by decide, C4_fallback_ordering "o3-mini" (by decide)⟩

/-- Claim C10: for every model, the fallback list never contains the model
itself and contains no duplicate entries. -/
theorem C10_fallback_no_self_no_dup (m : String) :
    m ∉ get_fallback_models m ∧ (get_fallback_models m).Nodup := by
  by_cases h : (modelClassOf m).isSome
  · have hmem := mem_allClassifiedModels_of_isSome m h
    simp [allClassifiedModels, MODEL_CLASSES] at hmem
    rcases hmem with rfl|rfl|rfl|rfl|rfl|rfl|rfl|rfl|rfl|rfl|rfl|rfl|rfl|rfl|rfl|rfl|rfl|rfl|rfl|rfl <;> exact ⟨by decide, by decide⟩
  · rw [fallback_of_unclassified m (Option.not_isSome_iff_eq_none.mp h)]
    exact ⟨List.not_mem_nil m, List.nodup_nil⟩

/-! Tool schema translation (`convert_openai_tools_to_claude_format`,
`convert_openai_tools_to_gemini_format`, `convert_tools_for_provider`).
Python dicts with optional keys are modelled with `Option` fields; a key
absent from the dict is `none`. -/

/-- A JSON-schema property definition: the translator touches only its
"type" key; other keys (such as "description") ride along untouched. -/
structure PropSchema where
  type : Option String
  description : Option String
deriving DecidableEq, Repr

/-- The parameter schema of an OpenAI-format tool: optional "type",
"properties" and "required" keys. -/
structure ParamSchema where
  type : Option String
  properties : Option (List (String × PropSchema))
  required : Option (List String)
deriving DecidableEq, Repr

/-- The "function" member of an OpenAI-format tool definition. -/
structure FunctionInfo where
  name : Option String
  description : Option String
  parameters : Option ParamSchema
deriving DecidableEq, Repr

/-- An OpenAI-format tool definition dict. -/
structure OpenAITool where
  type : Option String
  function : Option FunctionInfo
deriving DecidableEq, Repr

/-- The inner "custom" object of a Claude-format tool. -/
structure ClaudeCustom where
  name : String
  description : String
  parameters : ParamSchema
deriving DecidableEq, Repr

/-- A Claude-format tool: a "custom" envelope with the schema inlined. -/
structure ClaudeTool where
  type : String
  custom : ClaudeCustom
deriving DecidableEq, Repr

/-- One Gemini function declaration. -/
structure GeminiDecl where
  name : String
  description : String
  parameters : ParamSchema
deriving DecidableEq, Repr

/-- A Gemini-format tool: a function_declarations envelope list. -/
structure GeminiTool where
  function_declarations : List GeminiDecl
deriving DecidableEq, Repr

/-- Python `str.upper()` restricted to the ASCII schema type tokens used. -/
def toUpperStr (s : String) : String :=
  s.map Char.toUpper

/-- The per-tool body of the Claude conversion loop: tools whose type is not
"function" are skipped (`none`); for an "object" schema the top-level type is
removed and properties/required are defaulted in if missing. -/
def convert_tool_to_claude (tool : OpenAITool) : Option ClaudeTool :=
  if tool.type = some "function" then
    let functionInfo := tool.function.getD ⟨none, none, none⟩
    let parameters := functionInfo.parameters.getD ⟨none, none, none⟩
    let parameters :=
      if parameters.type = some "object" then
        { type := none
          properties := some (parameters.properties.getD [])
          required := some (parameters.required.getD []) }
      else parameters
    some { type := "custom"
           custom := { name := functionInfo.name.getD ""
                       description := functionInfo.description.getD ""
                       parameters := parameters } }
  else none

/-- `convert_openai_tools_to_claude_format` from `model_provider.py` (the
dict branch; `model_name` is accepted and unused, as in the source). -/
def convert_openai_tools_to_claude_format
    (tools : List OpenAITool) (model_name : String) : List ClaudeTool :=
  tools.filterMap convert_tool_to_claude

/-- The per-tool body of the Gemini conversion loop: upper-case the schema
type (defaulting to "OBJECT" when absent) and the type of every property. -/
def convert_tool_to_gemini (tool : OpenAITool) : Option GeminiTool :=
  if tool.type = some "function" then
    let functionInfo := tool.function.getD ⟨none, none, none⟩
    let parameters := functionInfo.parameters.getD ⟨none, none, none⟩
    let parameters :=
      { parameters with type :=
          match parameters.type with
          | some t => some (toUpperStr t)
          | none => some "OBJECT" }
    let parameters :=
      { parameters with properties :=
          parameters.properties.map (List.map (fun p =>
            (p.1, { p.2 with type := p.2.type.map toUpperStr }))) }
    some { function_declarations :=
            [{ name := functionInfo.name.getD ""
               description := functionInfo.description.getD ""
               parameters := parameters }] }
  else none

/-- `convert_openai_tools_to_gemini_format` from `model_provider.py` (the
dict branch). -/
def convert_openai_tools_to_gemini_format (tools : List OpenAITool) :
    List GeminiTool :=
  tools.filterMap convert_tool_to_gemini

/-- The provider-shaped result of `convert_tools_for_provider`: one of the
three target shapes. -/
inductive ProviderTools where
  | claude (tools : List ClaudeTool)
  | gemini (tools : List GeminiTool)
  | flat (tools : List OpenAITool)
deriving DecidableEq, Repr

/-- `convert_tools_for_provider` from `model_provider.py`: dispatch on the
provider; openai/xai (and unknown providers) pass the tools through flat. -/
def convert_tools_for_provider
    (tools : List OpenAITool) (provider : String) (model_name : String) :
    ProviderTools :=
  if provider = "anthropic" then
    .claude (convert_openai_tools_to_claude_format tools model_name)
  else if provider = "google" then
    .gemini (convert_openai_tools_to_gemini_format tools)
  else
    .flat tools

/-- A canonical OpenAI-format tool with a name, a description and an
object-typed parameter schema with properties and a required list. -/
def canonicalTool (n d : String) (ps : List (String × PropSchema))
    (r : List String) : OpenAITool :=
  ⟨some "function", some ⟨some n, some d, some ⟨some "object", some ps, some r⟩⟩⟩

/-- Reading name, description and required list back out of a flat
(openai/xai) tool. -/
def flat_readback (ts : List OpenAITool) : List (String × String × List String) :=
  ts.map (fun t =>
    let functionInfo := t.function.getD ⟨none, none, none⟩
    (functionInfo.name.getD "",
     functionInfo.description.getD "",
     (functionInfo.parameters.getD ⟨none, none, none⟩).required.getD []))

/-- Reading name, description and required list back out of Claude-shaped
tools. -/
def claude_readback (ts : List ClaudeTool) : List (String × String × List String) :=
  ts.map (fun t => (t.custom.name, t.custom.description,
    t.custom.parameters.required.getD []))

/-- Reading name, description and required list back out of Gemini-shaped
tools. -/
def gemini_readback (ts : List GeminiTool) : List (String × String × List String) :=
  ts.flatMap (fun t => t.function_declarations.map (fun d =>
    (d.name, d.description, d.parameters.required.getD [])))

/-- Reading name, description and required list back out of any of the three
provider shapes. -/
def provider_readback : ProviderTools → List (String × String × List String)
  | .claude ts => claude_readback ts
  | .gemini ts => gemini_readback ts
  | .flat ts => flat_readback ts

/-- A tool definition with no parameter schema at all. -/
def noParamsTool : OpenAITool :=
  ⟨some "function", some ⟨some "ping", some "Ping.", none⟩⟩

/-- Claim C5, counterexample: translating the parameterless tool to the
Gemini shape yields a parameters object whose type is "OBJECT" but whose
properties key is absent (`none`), not an empty properties object. -/
theorem C5_gemini_empty_schema_cex :
    (convert_openai_tools_to_gemini_format [noParamsTool]).map
        (fun g => g.function_declarations.map
          (fun d => (d.parameters.type, d.parameters.properties, d.parameters.required)))
      = [[(some "OBJECT", none, none)]] := by
  rfl

/-- Claim C5 (amended): translating a tool whose parameter schema is absent
or an empty dict to the Gemini shape produces a parameters object containing
only the defaulted type token "OBJECT"; the properties and required keys are
omitted. -/
theorem C5_gemini_empty_schema (functionInfo : FunctionInfo)
    (h : functionInfo.parameters = none ∨
      functionInfo.parameters = some ⟨none, none, none⟩) :
    convert_openai_tools_to_gemini_format [⟨some "function", some functionInfo⟩]
      = [⟨[⟨functionInfo.name.getD "", functionInfo.description.getD "",
            ⟨some "OBJECT", none, none⟩⟩]⟩] := by
  rcases h with h | h <;>
    simp [convert_openai_tools_to_gemini_format, convert_tool_to_gemini,
      List.filterMap, h]

/-- Witness for C5: the amended claim applied to the concrete parameterless
tool. -/
theorem C5_gemini_empty_schema_witness :
    convert_openai_tools_to_gemini_format [noParamsTool]
      = [⟨[⟨"ping", "Ping.", ⟨some "OBJECT", none, none⟩⟩]⟩] :=
  C5_gemini_empty_schema ⟨some "ping", some "Ping.", none⟩ (Or.inl rfl)

/-- Claim C6: for every canonical tool definition with a name, description
and an object-typed parameter schema, translating to each of the three
provider shapes and reading back name, description and required list
recovers the originals exactly. -/
theorem C6_tool_translation_roundtrip (n d : String)
    (ps : List (String × PropSchema)) (r : List String) (provider : String)
    (hp : provider ∈ ["openai", "xai", "anthropic", "google"]) :
    provider_readback
        (convert_tools_for_provider [canonicalTool n d ps r] provider "m")
      = [(n, d, r)] := by
  fin_cases hp <;>
    simp [convert_tools_for_provider, provider_readback, flat_readback,
      claude_readback, gemini_readback, canonicalTool,
      convert_openai_tools_to_claude_format, convert_tool_to_claude,
      convert_openai_tools_to_gemini_format, convert_tool_to_gemini]

/-- Witness for C6: the round-trip theorem applied to a concrete tool and
the provider "google". -/
theorem C6_tool_translation_roundtrip_witness :
    provider_readback
        (convert_tools_for_provider
          [canonicalTool "f" "doc" [("x", ⟨some "string", none⟩)] ["x"]]
          "google" "m")
      = [("f", "doc", ["x"])] :=
  C6_tool_translation_roundtrip "f" "doc" [("x", ⟨some "string", none⟩)] ["x"]
    "google" (by decide)

/-! The Anthropic backend caller's max-tokens clamp (`call_claude_directly`,
lines 401-415) and the Gemini backend caller's text extraction
(`call_gemini_directly`, non-tool branch, lines 813-879). -/

/-- Python's substring containment `pat in s` on character lists. -/
def containsTokenAux (p : List Char) : List Char → Bool
  | [] => p.isEmpty
  | c :: rest => p.isPrefixOf (c :: rest) || containsTokenAux p rest

/-- Python's substring containment `pat in s` for strings. -/
def strContains (s pat : String) : Bool :=
  containsTokenAux pat.data s.data

/-- The `max_tokens_limit` if/elif chain of `call_claude_directly`:
default 4096, raised to 64000 for "claude-3-7-sonnet" and "-sonnet-"
models and to 32000 for "-haiku-" models, first match winning. -/
def claude_max_tokens_limit (model_name : String) : Nat :=
  if strContains model_name "claude-3-7-sonnet" then 64000
  else if strContains model_name "-sonnet-" then 64000
  else if strContains model_name "-haiku-" then 32000
  else 4096

/-- The max_tokens actually sent by `call_claude_directly`:
`min(max_tokens, max_tokens_limit)`. -/
def call_claude_directly_max_tokens (model_name : String) (requested : Nat) : Nat :=
  min requested (claude_max_tokens_limit model_name)

/-- The fixed substitute text of `call_gemini_directly` (line 849), used
when no extraction strategy yields text. -/
def GEMINI_FALLBACK_TEXT : String :=
  "I am an AI orchestration engine called MAGI. I'm designed to coordinate different AI agents for complex tasks. I don't have a specific underlying model, but rather I use various models as needed for different tasks."

/-- The shapes a Gemini SDK response may present to the extraction code:
a direct text attribute, the nested candidates/content/parts text, and the
text of a resolved response.  A missing attribute path is `none`. -/
structure GeminiResponse where
  text : Option String
  partText : Option String
  resolvedText : Option String
deriving DecidableEq, Repr

/-- Extraction methods 1-3 of the non-tool branch of
`call_gemini_directly`: the direct text attribute, then (only when the
running value is still empty) the nested part text if truthy, then the
resolved text (assigned unconditionally when the path exists). -/
def gemini_extract_raw (r : GeminiResponse) : String :=
  let t := r.text.getD ""
  let t := if t = "" then
      match r.partText with
      | some v => if v ≠ "" then v else t
      | none => t
    else t
  if t = "" then
    match r.resolvedText with
    | some v => v
    | none => t
  else t

/-- Python's whitespace characters as stripped by `str.strip()`. -/
def isPyWhitespace (c : Char) : Bool :=
  c == ' ' || c == '\t' || c == '\n' || c == '\r' || c == '\x0b' || c == '\x0c'

/-- Python's `s.strip() == ""`: every character of the string is whitespace. -/
def pyStripIsEmpty (s : String) : Bool :=
  s.data.all isPyWhitespace

/-- Method 4 of `call_gemini_directly`: substitute the fixed fallback text
when the extraction is still empty. -/
def geminiFinalText (r : GeminiResponse) : String :=
  if gemini_extract_raw r = "" then GEMINI_FALLBACK_TEXT else gemini_extract_raw r

/-- The tail of the non-tool branch of `call_gemini_directly`: the content
after methods 1-4, validated by the final check that raises `ValueError` on
empty or whitespace-only content. -/
def call_gemini_directly_text (model_name : String) (r : GeminiResponse) :
    Except String String :=
  if geminiFinalText r = "" ∨ pyStripIsEmpty (geminiFinalText r) then
    Except.error ("Empty content in response from model " ++ model_name)
  else
    Except.ok (geminiFinalText r)

/-- Claim C3, counterexample: a Gemini response with no extractable content
at all (no text attribute, no nested part text, no resolvable text) is
surfaced as a SUCCESS carrying the fabricated substitute text, not as a
typed empty-or-malformed-response failure. -/
theorem C3_empty_content_cex :
    call_gemini_directly_text "gemini-2.0-flash" ⟨none, none, none⟩ =
      Except.ok GEMINI_FALLBACK_TEXT := by
  have h1 : gemini_extract_raw ⟨none, none, none⟩ = "" := rfl
  have h2 : pyStripIsEmpty GEMINI_FALLBACK_TEXT = false := by decide
  have h3 : GEMINI_FALLBACK_TEXT ≠ "" := by decide
  simp [call_gemini_directly_text, geminiFinalText, h1, h2, h3]

/-- Claim C3 (amended): a successful Gemini response never carries empty or
whitespace-only text, but when no extraction strategy yields content the
caller receives a success carrying the fixed fabricated substitute text
rather than a typed failure; the empty-content failure is raised only for
whitespace-only extracted text. -/
theorem C3_empty_content (model_name : String) (r : GeminiResponse) (s : String)
    (h : call_gemini_directly_text model_name r = Except.ok s) :
    pyStripIsEmpty s = false ∧
      (gemini_extract_raw r = "" → s = GEMINI_FALLBACK_TEXT) := by
  unfold call_gemini_directly_text at h
  split_ifs at h with hc
  injection h with h
  rw [← h]
  push_neg at hc
  constructor
  · simpa using hc.2
  · intro hraw
    unfold geminiFinalText
    rw [if_pos hraw]

/-- Witness for C3: the amended claim applied to the fully-empty response. -/
theorem C3_empty_content_witness :
    pyStripIsEmpty GEMINI_FALLBACK_TEXT = false ∧
      (gemini_extract_raw ⟨none, none, none⟩ = "" →
        GEMINI_FALLBACK_TEXT = GEMINI_FALLBACK_TEXT) := by
  refine C3_empty_content "gemini-2.0-flash" ⟨none, none, none⟩ GEMINI_FALLBACK_TEXT ?_
  have h2 : pyStripIsEmpty GEMINI_FALLBACK_TEXT = false := by decide
  have h3 : GEMINI_FALLBACK_TEXT ≠ "" := by decide
  simp [call_gemini_directly_text, geminiFinalText, h2, h3]
  rfl

/-- Claim C9: for every Anthropic model name and requested max-tokens value,
the value actually sent is the requested value clamped to the model-family
ceiling: 64000 for names containing "claude-3-7-sonnet" or "-sonnet-",
32000 for names containing "-haiku-", and 4096 otherwise, evaluated
most-specific pattern first. -/
theorem C9_claude_max_tokens_clamp (model_name : String) (requested : Nat) :
    call_claude_directly_max_tokens model_name requested =
      min requested
        (if strContains model_name "claude-3-7-sonnet" ||
            strContains model_name "-sonnet-" then 64000
         else if strContains model_name "-haiku-" then 32000
         else 4096) := by
  unfold call_claude_directly_max_tokens claude_max_tokens_limit
  by_cases h1 : strContains model_name "claude-3-7-sonnet" <;>
  by_cases h2 : strContains model_name "-sonnet-" <;>
  by_cases h3 : strContains model_name "-haiku-" <;>
  simp [h1, h2, h3]

/-! The retry-and-fallback loop of `FallbackStreamWrapper.stream_events`
(lines 1376-1695).  The outcome of one remote attempt is abstracted by an
oracle `attemptOk model i` for the i-th attempt on a candidate. -/

/-- One candidate's retry loop (lines 1410-1689): `retries` starts at 0 and
attempts run while `retries <= max_retries`; on a failed attempt the counter
is incremented and, if still within the maximum, the loop sleeps
`retry_delay * retries` (the incremented counter) before re-attempting the
same candidate, otherwise it breaks to the next candidate.  Returns the
sleeps performed and whether an attempt succeeded.  The fuel argument counts
the remaining loop iterations, `maxRetries + 1 - retries`. -/
def candidateRunAux (maxRetries : Nat) (delay : ℚ) (attemptOk : Nat → Bool) :
    Nat → Nat → List ℚ → List ℚ × Bool
  | 0, _, sleeps => (sleeps, false)
  | fuel + 1, retries, sleeps =>
    if attemptOk retries then (sleeps, true)
    else if retries + 1 ≤ maxRetries then
      candidateRunAux maxRetries delay attemptOk fuel (retries + 1)
        (sleeps ++ [delay * ((retries + 1 : ℕ) : ℚ)])
    else (sleeps, false)

/-- A candidate's whole retry loop, started at zero retries. -/
def candidateRun (maxRetries : Nat) (delay : ℚ) (attemptOk : Nat → Bool) :
    List ℚ × Bool :=
  candidateRunAux maxRetries delay attemptOk (maxRetries + 1) 0 []

/-- Whether a candidate's retry loop ends in success (the sleeps performed do
not affect this). -/
def candidateSucceeds (maxRetries : Nat) (delay : ℚ) (attemptOk : Nat → Bool) :
    Bool :=
  (candidateRun maxRetries delay attemptOk).2

/-- The outcome of one orchestration run: the models marked as tried, the
`error_logs` list, and the successful model if any. -/
structure OrchestratorOutcome where
  tried : List String
  errorLogs : List String
  result : Option String
deriving DecidableEq, Repr

/-- The candidate loop of `stream_events` (lines 1384-1695): iterate the
candidates in plan order, skipping one already tried; a candidate with no
provider mapping or no available client appends an entry to `error_logs` and
moves on; otherwise its retry loop runs, and a success terminates the whole
run with that candidate.  Falling off the end is the all-models-failed
outcome. -/
def stream_events_loop (maxRetries : Nat) (retryDelay : ℚ)
    (clientAvailable : String → Bool) (attemptOk : String → Nat → Bool) :
    List String → List String → List String → OrchestratorOutcome
  | [], tried, logs => ⟨tried, logs, none⟩
  | m :: rest, tried, logs =>
    if m ∈ tried then
      stream_events_loop maxRetries retryDelay clientAvailable attemptOk rest tried logs
    else
      match providerOf m with
      | none =>
        stream_events_loop maxRetries retryDelay clientAvailable attemptOk rest
          (tried ++ [m]) (logs ++ ["No provider defined for model " ++ m])
      | some p =>
        if clientAvailable p then
          if candidateSucceeds maxRetries retryDelay (attemptOk m) then
            ⟨tried ++ [m], logs, some m⟩
          else
            stream_events_loop maxRetries retryDelay clientAvailable attemptOk rest
              (tried ++ [m]) logs
        else
          stream_events_loop maxRetries retryDelay clientAvailable attemptOk rest
            (tried ++ [m])
            (logs ++ ["No client available for provider " ++ p ++ " (model " ++ m ++ ")"])

/-- The models of a candidate list not yet in the tried set, in order,
without repetitions (the loop's `tried_models` skip). -/
def freshOnes (tried : List String) : List String → List String
  | [] => []
  | m :: rest => if m ∈ tried then freshOnes tried rest
    else m :: freshOnes (tried ++ [m]) rest

/-- The `error_logs` entry a candidate contributes when it is skipped for a
missing provider or client, if any. -/
def gateLog (clientAvailable : String → Bool) (m : String) : Option String :=
  match providerOf m with
  | none => some ("No provider defined for model " ++ m)
  | some p =>
    if clientAvailable p then none
    else some ("No client available for provider " ++ p ++ " (model " ++ m ++ ")")

/-- Whether a candidate would end the run successfully: it has a provider,
the provider has a client, and its retry loop succeeds. -/
def candidateWins (maxRetries : Nat) (retryDelay : ℚ)
    (clientAvailable : String → Bool) (attemptOk : String → Nat → Bool)
    (m : String) : Bool :=
  match providerOf m with
  | none => false
  | some p => clientAvailable p && candidateSucceeds maxRetries retryDelay (attemptOk m)

/-- The prefix of a candidate list up to and including its first winning
candidate (the whole list when none wins). -/
def planPrefix (wins : String → Bool) : List String → List String
  | [] => []
  | m :: rest => if wins m then [m] else m :: planPrefix wins rest

theorem candidateRunAux_all_fail (maxRetries : Nat) (delay : ℚ)
    (attemptOk : Nat → Bool) (hfail : ∀ i, attemptOk i = false) :
    ∀ fuel retries sleeps, maxRetries + 1 = fuel + retries →
      candidateRunAux maxRetries delay attemptOk fuel retries sleeps =
        (sleeps ++ (List.range (maxRetries - retries)).map
          (fun i => delay * ((retries + i + 1 : ℕ) : ℚ)), false) := by
  intro fuel
  induction fuel with
  | zero =>
    intro retries sleeps h
    have h0 : maxRetries - retries = 0 := by omega
    simp [candidateRunAux, h0]
  | succ fuel ih =>
    intro retries sleeps h
    rw [candidateRunAux]
    rw [hfail retries]
    simp only [Bool.false_eq_true, if_false]
    by_cases hc : retries + 1 ≤ maxRetries
    · rw [if_pos hc]
      rw [ih (retries + 1) _ (by omega)]
      have hmr : maxRetries - retries = (maxRetries - (retries + 1)) + 1 := by omega
      rw [hmr, List.range_succ_eq_map, List.map_cons, List.map_map,
        List.append_assoc, List.singleton_append]
      congr 1
      congr 1
      congr 1
      apply List.map_congr_left
      intro i _
      simp only [Function.comp_apply, Nat.succ_eq_add_one]
      congr 2
      omega
    · rw [if_neg hc]
      have h0 : maxRetries - retries = 0 := by omega
      simp [h0]

theorem candidateRun_all_fail (maxRetries : Nat) (delay : ℚ)
    (attemptOk : Nat → Bool) (hfail : ∀ i, attemptOk i = false) :
    candidateRun maxRetries delay attemptOk =
      ((List.range maxRetries).map (fun i => delay * ((i + 1 : ℕ) : ℚ)), false) := by
  rw [candidateRun, candidateRunAux_all_fail maxRetries delay attemptOk hfail
    (maxRetries + 1) 0 [] (by omega)]
  simp

theorem stream_events_loop_spec (maxRetries : Nat) (retryDelay : ℚ)
    (clientAvailable : String → Bool) (attemptOk : String → Nat → Bool) :
    ∀ models tried logs,
      stream_events_loop maxRetries retryDelay clientAvailable attemptOk
          models tried logs =
        ⟨tried ++ planPrefix
            (candidateWins maxRetries retryDelay clientAvailable attemptOk)
            (freshOnes tried models),
         logs ++ (planPrefix
            (candidateWins maxRetries retryDelay clientAvailable attemptOk)
            (freshOnes tried models)).filterMap (gateLog clientAvailable),
         (freshOnes tried models).find?
            (candidateWins maxRetries retryDelay clientAvailable attemptOk)⟩ := by
  intro models
  induction models with
  | nil =>
    intro tried logs
    simp [stream_events_loop, freshOnes, planPrefix]
  | cons m rest ih =>
    intro tried logs
    rw [stream_events_loop]
    by_cases hm : m ∈ tried
    · rw [if_pos hm, ih]
      simp [freshOnes, hm]
    · rw [if_neg hm]
      have hfresh : freshOnes tried (m :: rest) = m :: freshOnes (tried ++ [m]) rest := by
        simp [freshOnes, hm]
      rw [hfresh]
      cases hp : providerOf m with
      | none =>
        have hw : candidateWins maxRetries retryDelay clientAvailable attemptOk m = false := by
          simp [candidateWins, hp]
        rw [ih]
        simp [planPrefix, hw, List.find?_cons, gateLog, hp, List.append_assoc]
      | some p =>
        dsimp only
        by_cases hcl : clientAvailable p
        · by_cases hsucc : candidateSucceeds maxRetries retryDelay (attemptOk m)
          · have hw : candidateWins maxRetries retryDelay clientAvailable attemptOk m = true := by
              simp [candidateWins, hp, hcl, hsucc]
            rw [if_pos hcl, if_pos hsucc]
            simp [planPrefix, hw, List.find?_cons, gateLog, hp, hcl]
          · have hw : candidateWins maxRetries retryDelay clientAvailable attemptOk m = false := by
              simp [candidateWins, hp, hcl, hsucc]
            rw [if_pos hcl, if_neg hsucc, ih]
            simp [planPrefix, hw, List.find?_cons, gateLog, hp, hcl, List.append_assoc]
        · have hw : candidateWins maxRetries retryDelay clientAvailable attemptOk m = false := by
            simp [candidateWins, hp, hcl]
          rw [if_neg hcl, ih]
          simp [planPrefix, hw, List.find?_cons, gateLog, hp, hcl, List.append_assoc]

theorem candidateSucceeds_all_fail (maxRetries : Nat) (retryDelay : ℚ)
    (attemptOk : Nat → Bool) (hfail : ∀ i, attemptOk i = false) :
    candidateSucceeds maxRetries retryDelay attemptOk = false := by
  unfold candidateSucceeds
  rw [candidateRun_all_fail maxRetries retryDelay attemptOk hfail]

theorem candidateWins_all_fail (maxRetries : Nat) (retryDelay : ℚ)
    (clientAvailable : String → Bool) (attemptOk : String → Nat → Bool)
    (hall : ∀ m i, attemptOk m i = false) :
    ∀ m, candidateWins maxRetries retryDelay clientAvailable attemptOk m = false := by
  intro m
  unfold candidateWins
  cases hp : providerOf m with
  | none => rfl
  | some p =>
    simp [candidateSucceeds_all_fail maxRetries retryDelay (attemptOk m) (hall m)]

theorem planPrefix_all_false (wins : String → Bool)
    (h : ∀ m, wins m = false) : ∀ l, planPrefix wins l = l := by
  intro l
  induction l with
  | nil => rfl
  | cons m rest ih => simp [planPrefix, h m, ih]

/-- Claim C2, counterexample: with two candidates ("gpt-4o" and
"gemini-2.0-flash", both with providers and clients available) each failing
every attempt under maxRetries = 3, the run is exhausted yet the recorded
error log carries 0 entries, not the 2 * (3 + 1) = 8 per-attempt entries the
claim requires. -/
theorem C2_exhaustion_aggregation_cex :
    (stream_events_loop 3 2 (fun _ => true) (fun _ _ => false)
        ["gpt-4o", "gemini-2.0-flash"] [] []).result = none ∧
    (stream_events_loop 3 2 (fun _ => true) (fun _ _ => false)
        ["gpt-4o", "gemini-2.0-flash"] [] []).errorLogs.length = 0 ∧
    2 * (3 + 1) ≠ 0 :=
  ⟨rfl, rfl, by decide⟩

/-- Claim C2 (amended): when every candidate fails all of its attempts, the
terminal exhaustion outcome records the de-duplicated list of attempted
candidates and an error log containing exactly the entries of candidates
skipped for a missing provider or missing client; the per-attempt failures
(N * (maxRetries + 1) of them) are never recorded in it. -/
theorem C2_exhaustion_aggregation (maxRetries : Nat) (retryDelay : ℚ)
    (clientAvailable : String → Bool) (attemptOk : String → Nat → Bool)
    (models : List String) (hall : ∀ m i, attemptOk m i = false) :
    stream_events_loop maxRetries retryDelay clientAvailable attemptOk
        models [] [] =
      ⟨freshOnes [] models,
       (freshOnes [] models).filterMap (gateLog clientAvailable),
       none⟩ := by
  rw [stream_events_loop_spec]
  have hw := candidateWins_all_fail maxRetries retryDelay clientAvailable attemptOk hall
  rw [planPrefix_all_false _ hw]
  have hfind : (freshOnes [] models).find?
      (candidateWins maxRetries retryDelay clientAvailable attemptOk) = none :=
    List.find?_eq_none.mpr (fun x _ => by simp [hw x])
  simp [hfind]

/-- Witness for C2: one available candidate and one whose provider has no
client, both failing all attempts; the log holds exactly the skipped
candidate's entry. -/
theorem C2_exhaustion_aggregation_witness :
    stream_events_loop 1 2 (fun p => p == "openai") (fun _ _ => false)
        ["gpt-4o", "claude-3-7-sonnet-latest", "gpt-4o"] [] [] =
      ⟨["gpt-4o", "claude-3-7-sonnet-latest"],
       ["No client available for provider anthropic (model claude-3-7-sonnet-latest)"],
       none⟩ := by
  have h := C2_exhaustion_aggregation 1 2 (fun p => p == "openai")
    (fun _ _ => false) ["gpt-4o", "claude-3-7-sonnet-latest", "gpt-4o"]
    (fun _ _ => rfl)
  rw [h]
  rfl

/-- Claim C7: the retry backoff is linear.  For a candidate that fails every
attempt, the loop performs exactly maxRetries sleeps of retryDelay * 1,
retryDelay * 2, ..., retryDelay * maxRetries (one after each failed attempt
still within the maximum), and after the counter exceeds the maximum it
stops without further waiting. -/
theorem C7_linear_backoff (maxRetries : Nat) (retryDelay : ℚ)
    (attemptOk : Nat → Bool) (hfail : ∀ i, attemptOk i = false) :
    candidateRun maxRetries retryDelay attemptOk =
      ((List.range maxRetries).map (fun i => retryDelay * ((i + 1 : ℕ) : ℚ)),
       false) :=
  candidateRun_all_fail maxRetries retryDelay attemptOk hfail

/-- Witness for C7: maxRetries = 3 and retryDelay = 2 give the sleep
sequence 2, 4, 6. -/
theorem C7_linear_backoff_witness :
    candidateRun 3 2 (fun _ => false) = ([2, 4, 6], false) := by
  refine (C7_linear_backoff 3 2 (fun _ => false) (fun _ => rfl)).trans ?_
  norm_num [List.range_succ]

/-- Claim C8: within one run the candidates are attempted strictly
sequentially in fallback-plan order (the loop is a sequential recursion, so
no parallelism exists); the models marked tried are exactly the
de-duplicated plan's prefix up to and including the first winning candidate,
and the result is that first winner — after it no later candidate is ever
attempted. -/
theorem C8_sequential_first_success (maxRetries : Nat) (retryDelay : ℚ)
    (clientAvailable : String → Bool) (attemptOk : String → Nat → Bool)
    (models : List String) :
    stream_events_loop maxRetries retryDelay clientAvailable attemptOk
        models [] [] =
      ⟨planPrefix (candidateWins maxRetries retryDelay clientAvailable attemptOk)
          (freshOnes [] models),
       (planPrefix (candidateWins maxRetries retryDelay clientAvailable attemptOk)
          (freshOnes [] models)).filterMap (gateLog clientAvailable),
       (freshOnes [] models).find?
          (candidateWins maxRetries retryDelay clientAvailable attemptOk)⟩ := by
  rw [stream_events_loop_spec]
  simp

end MagiModelProvider
